import Mathlib

set_option autoImplicit false
set_option maxRecDepth 8000

/-!
Verification of the scram fault-tree registry (`src/fault_tree.cc`) and the
report builder (`src/reporter.cc`).

Modelling conventions, stated once here:

* C++ `std::map` / `boost::unordered_map` objects are modelled as association
  lists (`List (κ × α)`), read through `lookupList` and extended through
  `mapInsert` (which, like `std::map::insert`, is a no-op on a present key).
  Iteration order of a map is the order of the association list.
* A raised C++ exception is an `Outcome.raised` carrying the `ScramError`
  variant and message of the source; a failed `assert` or an execution of
  undefined behaviour (dereferencing a null pointer or an end iterator) is
  `Outcome.aborted`: the process dies and no state or catchable error escapes.
* C++ `double` values are consumed by the reporter only through
  `boost::lexical_cast<std::string>`; they are therefore carried opaquely as
  their serialized decimal text (`String`).  Container sizes are `Nat`; the
  one signed quantity (`num_bins` in `ReportUncertainty`) is an `Int`.
* An `xmlpp::Document` is `Option XmlNode` (`none` = no root node), and the
  pointer-based `find` / `add_child` mutations of libxml++ are modelled as
  functional updates on the node tree (`selectPath`, `updateLastAtPath`).
-/

namespace scram

/-- The exception hierarchy of `error.h`: `scram::Error` and its
`ValueError` / `LogicError` subclasses, each carrying its message. -/
inductive ScramError where
  | error (msg : String)
  | valueError (msg : String)
  | logicError (msg : String)
deriving DecidableEq

/-- Result of running one C++ member function: normal return, a thrown
exception propagating to the caller, or a process abort (failed `assert`
or undefined behaviour), which surfaces neither a value nor an error. -/
inductive Outcome (α : Type) where
  | ok (val : α)
  | raised (e : ScramError)
  | aborted

/-- The event hierarchy of `event.h` as a tagged variant: `Gate`,
`BasicEvent`, `HouseEvent` and `CcfEvent` (a synthetic basic event carrying
its CCF group's name, represented member identifiers and total group size).
A gate's children are the `std::map<std::string, EventPtr>` of the source,
as an association list in map order. -/
inductive Event where
  | basic (id orig_id : String)
  | house (id orig_id : String)
  | ccf (id orig_id ccf_group_name : String)
      (member_names : List String) (ccf_group_size : Nat)
  | gate (id : String) (children : List (String × Event))

/-- `Event::id()`. -/
def Event.id : Event → String
  | .basic i _ => i
  | .house i _ => i
  | .ccf i _ _ _ _ => i
  | .gate i _ => i

/-- `Event::orig_id()`, the display identifier (for a gate it is never
consumed by this unit; its `id` stands in). -/
def Event.orig_id : Event → String
  | .basic _ o => o
  | .house _ o => o
  | .ccf _ o _ _ _ => o
  | .gate i _ => i

/-- `Gate::children()`; non-gate events have no children. -/
def Event.children : Event → List (String × Event)
  | .gate _ cs => cs
  | _ => []

/-- `boost::dynamic_pointer_cast<scram::PrimaryEvent>`: succeeds exactly on
the non-gate variants. -/
def Event.asPrimary : Event → Option Event
  | .gate _ _ => none
  | e => some e

/-- First-match lookup in an association list, the read operation of the
modelled C++ maps (`count`, `find`). -/
def lookupList {κ α : Type} [DecidableEq κ] : List (κ × α) → κ → Option α
  | [], _ => none
  | (k, v) :: rest, s => if k = s then some v else lookupList rest s

/-- `std::map::insert` / `boost::unordered_map::insert`: inserts only when
the key is absent. -/
def mapInsert {κ α : Type} [DecidableEq κ] (l : List (κ × α)) (k : κ) (v : α) :
    List (κ × α) :=
  if (lookupList l k).isSome then l else l ++ [(k, v)]

/-- The `FaultTree` class state (`fault_tree.h`): name, top gate pointer and
its identifier (`""` while unset), intermediate-gate map, primary-event map
(populated by finalization), lock flag and accumulated warnings. -/
structure FaultTree where
  name_ : String
  top_event_ : Option Event
  top_event_id_ : String
  inter_events_ : List (String × Event)
  primary_events_ : List (String × Event)
  lock_ : Bool
  warnings_ : String

/-- The `FaultTree(std::string name)` constructor. -/
def newFaultTree (name : String) : FaultTree :=
  { name_ := name
    top_event_ := none
    top_event_id_ := ""
    inter_events_ := []
    primary_events_ := []
    lock_ := false
    warnings_ := "" }

/-- `FaultTree::AddGate`.  Returns the object state after the call together
with the exception thrown, if any: a throw aborts the method body, so the
state at the throw point (unchanged, since both throws precede every
mutation) is what the surviving object holds. -/
def FaultTree.AddGate (ft : FaultTree) (gate : Event) :
    FaultTree × Option ScramError :=
  if ft.lock_ then
    (ft, some (.error "The tree is locked. No change is allowed."))
  else if ft.top_event_id_ = "" then
    ({ ft with top_event_ := some gate, top_event_id_ := gate.id }, none)
  else if (lookupList ft.inter_events_ gate.id).isSome ∨ gate.id = ft.top_event_id_ then
    (ft, some (.valueError "Trying to doubly define a gate"))
  else
    ({ ft with inter_events_ := mapInsert ft.inter_events_ gate.id gate }, none)

/-- The body of `FaultTree::GetPrimaryEvents` over one gate's children list:
a child identifier registered in `inter_events_` is skipped; otherwise the
child must cast to a primary event (`assert(primary_event != 0)`, modelled
as `none` = abort) and is inserted into the primary-event map. -/
def GetPrimaryEvents (inter : List (String × Event)) :
    List (String × Event) → List (String × Event) → Option (List (String × Event))
  | prim, [] => some prim
  | prim, (cid, cev) :: rest =>
    if (lookupList inter cid).isSome then GetPrimaryEvents inter prim rest
    else
      match cev.asPrimary with
      | some p => GetPrimaryEvents inter (mapInsert prim cid p) rest
      | none => none

/-- The `inter_events_` loop of `FaultTree::GatherPrimaryEvents`: one
`GetPrimaryEvents` scan per registered intermediate gate, in map order. -/
def gatherInter (inter : List (String × Event)) :
    List (String × Event) → List (String × Event) → Option (List (String × Event))
  | prim, [] => some prim
  | prim, (_, g) :: rest =>
    match GetPrimaryEvents inter prim g.children with
    | some prim1 => gatherInter inter prim1 rest
    | none => none

/-- `FaultTree::GatherPrimaryEvents`: sets the lock, scans the top gate's
children, then every intermediate gate's children.  A null `top_event_`
would be dereferenced by the scan (undefined behaviour, `aborted`); the lock
flag is set first in the source but is observable only on a normal return. -/
def FaultTree.GatherPrimaryEvents (ft : FaultTree) : Outcome FaultTree :=
  match ft.top_event_ with
  | none => .aborted
  | some top =>
    match GetPrimaryEvents ft.inter_events_ ft.primary_events_ top.children with
    | none => .aborted
    | some prim1 =>
      match gatherInter ft.inter_events_ prim1 ft.inter_events_ with
      | none => .aborted
      | some prim2 => .ok { ft with lock_ := true, primary_events_ := prim2 }

/-- Runs a sequence of `AddGate` calls, threading the object state (a thrown
exception is caught by the driver and leaves the surviving object usable);
returns the final state and the per-call exception trace. -/
def addGateSeq (ft : FaultTree) : List Event → FaultTree × List (Option ScramError)
  | [] => (ft, [])
  | g :: gs =>
    let r := ft.AddGate g
    let rest := addGateSeq r.1 gs
    (rest.1, r.2 :: rest.2)

/-- The child identifiers reachable in one hop from the top gate or from any
intermediate gate: exactly the identifiers scanned by `GatherPrimaryEvents`. -/
def FaultTree.oneHopChildIds (ft : FaultTree) : List String :=
  (match ft.top_event_ with
   | some t => t.children.map Prod.fst
   | none => []) ++
  ft.inter_events_.flatMap (fun p => p.2.children.map Prod.fst)

/-! ### The XML document model -/

/-- An `xmlpp` node: an element with its attribute list (in the order the
attributes were set) and child nodes (in the order they were added), or a
text node. -/
inductive XmlNode where
  | element (name : String) (attrs : List (String × String)) (children : List XmlNode)
  | text (s : String)

/-- An `xmlpp::Document`: `none` models a document whose `get_root_node()`
returns the null pointer. -/
abbrev XmlDoc := Option XmlNode

/-- Whether a node is an element with the given name. -/
def childNamed (nm : String) : XmlNode → Bool
  | .element n _ _ => n == nm
  | .text _ => false

/-- The children of a node that are elements with the given name. -/
def childrenNamed (n : XmlNode) (nm : String) : List XmlNode :=
  match n with
  | .element _ _ cs => cs.filter (childNamed nm)
  | .text _ => []

/-- `node->find("./a/b/...")`: all descendants reached by the relative name
path, in document order. -/
def selectPath : List XmlNode → List String → List XmlNode
  | ns, [] => ns
  | ns, nm :: rest => selectPath (ns.flatMap (fun c => childrenNamed c nm)) rest

/-- Whether the relative path has at least one match below the node. -/
def hasMatch (c : XmlNode) (path : List String) : Bool :=
  !(selectPath [c] path).isEmpty

/-- `element->add_child(...)`: appends a child node (text nodes take no
children; the source never adds below a text node). -/
def XmlNode.addChild : XmlNode → XmlNode → XmlNode
  | .element nm attrs cs, c => .element nm attrs (cs ++ [c])
  | .text s, _ => .text s

/-- Updates the first list element satisfying the predicate. -/
def updateFirstWhere {α : Type} (p : α → Bool) (f : α → α) : List α → List α
  | [] => []
  | a :: as => if p a then f a :: as else a :: updateFirstWhere p f as

/-- Updates the last list element satisfying the predicate. -/
def updateLastWhere {α : Type} (p : α → Bool) (f : α → α) (l : List α) : List α :=
  (updateFirstWhere p f l.reverse).reverse

/-- Applies `f` to the last match (in document order) of the relative name
path below `n` — the functional rendering of mutating the node returned by
`find(path).back()` (and, when the match is unique, the node returned by
`find(path)[0]`). -/
def updateLastAtPath (f : XmlNode → XmlNode) : XmlNode → List String → XmlNode
  | n, [] => f n
  | n, nm :: rest =>
    match n with
    | .element enm attrs cs =>
      .element enm attrs
        (updateLastWhere (fun c => childNamed nm c && hasMatch c rest)
          (fun c => updateLastAtPath f c rest) cs)
    | .text s => .text s

/-- The value of an attribute of an element node. -/
def getAttrVal (n : XmlNode) (k : String) : Option String :=
  match n with
  | .element _ attrs _ => lookupList attrs k
  | .text _ => none

/-! ### String utilities of the reporter (`boost::algorithm`) -/

mutual
/-- Token accumulation state of `boost::split` on `' '` with
`token_compress_on`: `cur` holds the reversed characters of the token being
read. -/
def splitTok (cur : List Char) : List Char → List (List Char)
  | [] => [cur.reverse]
  | c :: cs => if c == ' ' then cur.reverse :: splitDelim cs else splitTok (c :: cur) cs
/-- Delimiter state of the same split: adjacent separators are compressed. -/
def splitDelim : List Char → List (List Char)
  | [] => [[]]
  | c :: cs => if c == ' ' then splitDelim cs else splitTok [c] cs
end

/-- `boost::split(names, full_name, boost::is_any_of(" "), token_compress_on)`. -/
def boostSplitSpaces (s : String) : List String :=
  (splitTok [] s.data).map (fun l => String.mk l)

/-- Prefix test for the first-occurrence search (the pattern is examined
character by character against the list). -/
def isPre (pat l : List Char) : Bool :=
  match pat, l with
  | [], _ => true
  | _ :: _, [] => false
  | a :: as, b :: bs => a == b && isPre as bs

/-- Replacement of the first occurrence of `pat` in a character list. -/
def replaceFirstList (pat rep : List Char) : List Char → List Char
  | [] => []
  | c :: cs =>
    if isPre pat (c :: cs) then rep ++ (c :: cs).drop pat.length
    else c :: replaceFirstList pat rep cs

/-- `boost::replace_first(s, pat, rep)`. -/
def replaceFirst (s pat rep : String) : String :=
  String.mk (replaceFirstList pat.data rep.data s.data)

/-! ### The analysis result interfaces consumed by `Reporter` -/

/-- The slice of `RiskAnalysis` the reporter reads: only the `.size()` of
each container, modelled directly as the sizes.  (`house-events` is derived
as `primary_events_.size() - basic_events_.size()`; the basic events are a
subset of the primary events upstream, so the unsigned subtraction never
wraps.) -/
structure RiskAnalysis where
  gates_ : Nat
  basic_events_ : Nat
  primary_events_ : Nat
  ccf_groups_ : Nat
  fault_trees_ : Nat

/-- The `Settings` fields read by `SetupReport`. -/
structure Settings where
  limit_order_ : Nat
  ccf_analysis_ : Bool
  probability_analysis_ : Bool
  importance_analysis_ : Bool
  uncertainty_analysis_ : Bool
  approx_ : String
  cut_off_ : String
  num_sums_ : Nat
  trials_ : Nat

/-- The `FaultTreeAnalysis` result interface read by `ReportFta`:
`basic_events_` maps identifiers to `BasicEventPtr`s (basic or CCF events). -/
structure FaultTreeAnalysis where
  num_basic_events_ : Nat
  min_cut_sets_ : List (List String)
  warnings : String
  analysis_time_ : String
  basic_events_ : List (String × Event)

/-- The `ProbabilityAnalysis` result interface: total probability,
per-cut-set probabilities keyed by the member set, the importance map
(a 5-vector of measures per basic event) and the two elapsed times. -/
structure ProbabilityAnalysis where
  p_total : String
  warnings : String
  prob_of_min_sets : List (List String × String)
  importance : List (String × List String)
  basic_events_ : List (String × Event)
  p_time_ : String
  imp_time_ : String

/-- The `UncertaintyAnalysis` result interface: the distribution is the
ordered sample of (boundary, value) pairs. -/
structure UncertaintyAnalysis where
  warnings : String
  mean : String
  sigma : String
  confidence_interval : String × String
  distribution : List (String × String)
  p_time_ : String

/-! ### `Reporter` -/

/-- `Reporter::SetupReport`.  `timeStr` is the wall-clock timestamp and
`versionStr` the `version::core()` string, both environmental inputs. -/
def Reporter.SetupReport (risk_an : RiskAnalysis) (settings : Settings)
    (timeStr versionStr : String) (doc : XmlDoc) : Outcome XmlDoc :=
  match doc with
  | some _ => .raised (.logicError "The passed document is not empty for reporting")
  | none =>
    let information := XmlNode.element "information" []
      ([XmlNode.element "software" [("name", "SCRAM"), ("version", versionStr)] [],
        XmlNode.element "time" [] [XmlNode.text timeStr],
        XmlNode.element "performance" [] [],
        XmlNode.element "calculated-quantity"
          [("name", "Minimal Cut Set Analysis"),
           ("definition", "Groups of events sufficient for a top event failure")] [],
        XmlNode.element "calculation-method" [("name", "MOCUS")]
          [XmlNode.element "limits" []
            [XmlNode.element "number-of-basic-events" []
              [XmlNode.text (toString settings.limit_order_)]]]] ++
       (if settings.ccf_analysis_ then
          [XmlNode.element "calculated-quantity"
            [("name", "CCF Analysis"),
             ("definition", "Failure of multiple elements due to a common cause")] []]
        else []) ++
       (if settings.probability_analysis_ then
          [XmlNode.element "calculated-quantity"
            [("name", "Probability Analysis"),
             ("definition", "Quantitative analysis of failure probability"),
             ("approximation", settings.approx_)] [],
           XmlNode.element "calculation-method" [("name", "Numerical Probability")]
            [XmlNode.element "limits" []
              [XmlNode.element "cut-off" [] [XmlNode.text settings.cut_off_],
               XmlNode.element "number-of-sums" []
                [XmlNode.text (toString settings.num_sums_)]]]]
        else []) ++
       (if settings.importance_analysis_ then
          [XmlNode.element "calculated-quantity"
            [("name", "Importance Analysis"),
             ("definition",
              "Quantitative analysis of contributions and importance of events.")] []]
        else []) ++
       (if settings.uncertainty_analysis_ then
          [XmlNode.element "calculated-quantity"
            [("name", "Uncertainty Analysis"),
             ("definition",
              "Calculation of uncertainties with the Monte Carlo method")] [],
           XmlNode.element "calculation-method" [("name", "Monte Carlo")]
            [XmlNode.element "limits" []
              [XmlNode.element "number-of-trials" []
                [XmlNode.text (toString settings.trials_)]]]]
        else []) ++
       [XmlNode.element "model-features" []
         [XmlNode.element "gates" [] [XmlNode.text (toString risk_an.gates_)],
          XmlNode.element "basic-events" [] [XmlNode.text (toString risk_an.basic_events_)],
          XmlNode.element "house-events" []
            [XmlNode.text (toString (risk_an.primary_events_ - risk_an.basic_events_))],
          XmlNode.element "ccf-groups" [] [XmlNode.text (toString risk_an.ccf_groups_)],
          XmlNode.element "fault-trees" [] [XmlNode.text (toString risk_an.fault_trees_)]]])
    .ok (some (XmlNode.element "report" []
      [information, XmlNode.element "results" [] []]))

/-- `Reporter::ReportOrphans`: asserts the set non-empty, concatenates the
display identifiers into one warning line and attaches it to the (unique)
information section. -/
def Reporter.ReportOrphans (orphan_primary_events : List Event) (doc : XmlDoc) :
    Outcome XmlDoc :=
  if orphan_primary_events.isEmpty then .aborted
  else
    let out := orphan_primary_events.foldl
      (fun acc e => acc ++ e.orig_id ++ " ") "WARNING! Found unused primary events: "
    match doc with
    | none => .aborted
    | some root =>
      if (selectPath [root] ["information"]).length == 1 then
        .ok (some (updateLastAtPath
          (fun n => n.addChild (XmlNode.element "warning" [] [XmlNode.text out]))
          root ["information"]))
      else .aborted

/-- Rendering of one resolved `BasicEventPtr` member of a cut set: the
`dynamic_pointer_cast<CcfEvent>` branch of `ReportFta` (identical in the
negated and direct cases of the source). -/
def renderBasicOrCcf : Event → XmlNode
  | .ccf _ _ gname members gsize =>
    XmlNode.element "ccf-event"
      [("ccf-group", gname), ("order", toString members.length),
       ("group-size", toString gsize)]
      (members.map (fun m => XmlNode.element "basic-event" [("name", m)] []))
  | be => XmlNode.element "basic-event" [("name", be.orig_id)] []

/-- Rendering of one member string of a minimal cut set: splits on spaces,
tests the first token against `"not"`, strips the first `"not "` occurrence
to resolve the basic event, and wraps a negated member in a `not` node.
A failed `basic_events_.find` dereferences the end iterator (`none`). -/
def renderMember (basic_events : List (String × Event)) (full_name : String) :
    Option XmlNode :=
  let names := boostSplitSpaces full_name
  if names.headD "" == "not" then
    let comp_name := replaceFirst full_name "not " ""
    match lookupList basic_events comp_name with
    | none => none
    | some basic_event => some (XmlNode.element "not" [] [renderBasicOrCcf basic_event])
  else
    match lookupList basic_events full_name with
    | none => none
    | some basic_event => some (renderBasicOrCcf basic_event)

/-- Rendering of one `product` entry: order attribute, the per-set
probability when a probability analysis is supplied (a missing key in
`prob_of_min_sets` dereferences the end iterator), then one child per
member. -/
def renderProduct (prob_analysis : Option ProbabilityAnalysis)
    (basic_events : List (String × Event)) (cut_set : List String) :
    Option XmlNode := do
  let probAttrs ←
    match prob_analysis with
    | none => some []
    | some pa =>
      match lookupList pa.prob_of_min_sets cut_set with
      | none => none
      | some p => some [("probability", p)]
  let members ← cut_set.mapM (renderMember basic_events)
  some (XmlNode.element "product"
    ([("order", toString cut_set.length)] ++ probAttrs) members)

/-- `Reporter::ReportFta`: appends the `sum-of-products` section under the
(unique) `results` node, then the tree's `calculation-time` entry under the
(unique) `information/performance` node. -/
def Reporter.ReportFta (ft_name : String) (fta : FaultTreeAnalysis)
    (prob_analysis : Option ProbabilityAnalysis) (doc : XmlDoc) : Outcome XmlDoc :=
  match doc with
  | none => .aborted
  | some root =>
    if (selectPath [root] ["results"]).length == 1 then
      let warning := fta.warnings ++
        (match prob_analysis with | some pa => pa.warnings | none => "")
      match fta.min_cut_sets_.mapM (renderProduct prob_analysis fta.basic_events_) with
      | none => .aborted
      | some products =>
        let sop := XmlNode.element "sum-of-products"
          ([("name", ft_name),
            ("basic-events", toString fta.num_basic_events_),
            ("products", toString fta.min_cut_sets_.length)] ++
           (match prob_analysis with
            | some pa => [("probability", pa.p_total)]
            | none => []))
          ((if warning != "" then [XmlNode.element "warning" [] [XmlNode.text warning]]
            else []) ++ products)
        let root1 := updateLastAtPath (fun n => n.addChild sop) root ["results"]
        let calc_time := XmlNode.element "calculation-time" [("name", ft_name)]
          ([XmlNode.element "minimal-cut-set" [] [XmlNode.text fta.analysis_time_]] ++
           (match prob_analysis with
            | some pa => [XmlNode.element "probability" [] [XmlNode.text pa.p_time_]]
            | none => []))
        if (selectPath [root1] ["information", "performance"]).length == 1 then
          .ok (some (updateLastAtPath (fun n => n.addChild calc_time)
            root1 ["information", "performance"]))
        else .aborted
    else .aborted

/-- Rendering of one entry of the importance map: resolves the display
identifier through `basic_events_` (a missing key dereferences the end
iterator) and reports the five measures `it->second[0] .. it->second[4]`. -/
def renderImportance (pa : ProbabilityAnalysis) (entry : String × List String) :
    Option XmlNode :=
  match lookupList pa.basic_events_ entry.1 with
  | none => none
  | some be => some (XmlNode.element "basic-event"
      [("name", be.orig_id),
       ("DIF", entry.2.getD 0 ""), ("MIF", entry.2.getD 1 ""),
       ("CIF", entry.2.getD 2 ""), ("RRW", entry.2.getD 3 ""),
       ("RAW", entry.2.getD 4 "")] [])

/-- `Reporter::ReportImportance`: appends the `importance` section under the
(unique) `results` node, then attaches the importance elapsed time to the
last (`back()`) `calculation-time` entry of the performance log. -/
def Reporter.ReportImportance (ft_name : String) (prob_analysis : ProbabilityAnalysis)
    (doc : XmlDoc) : Outcome XmlDoc :=
  match doc with
  | none => .aborted
  | some root =>
    if (selectPath [root] ["results"]).length == 1 then
      match prob_analysis.importance.mapM (renderImportance prob_analysis) with
      | none => .aborted
      | some entries =>
        let imp := XmlNode.element "importance"
          [("name", ft_name),
           ("basic-events", toString prob_analysis.importance.length)]
          ((if prob_analysis.warnings != "" then
              [XmlNode.element "warning" [] [XmlNode.text prob_analysis.warnings]]
            else []) ++ entries)
        let root1 := updateLastAtPath (fun n => n.addChild imp) root ["results"]
        if (selectPath [root1] ["information", "performance", "calculation-time"]).isEmpty
        then .aborted
        else .ok (some (updateLastAtPath
          (fun n => n.addChild
            (XmlNode.element "importance" [] [XmlNode.text prob_analysis.imp_time_]))
          root1 ["information", "performance", "calculation-time"]))
    else .aborted

/-- The quantile entries of `ReportUncertainty`: the loop
`for (int i = 0; i < num_bins; ++i)` over `num_bins = distribution.size() - 1`
bins, each numbered `i + 1` with lower bound `distribution[i].first`, upper
bound `distribution[i+1].first` and mean `distribution[i+1].second`. -/
def quantileNodes (dist : List (String × String)) : List XmlNode :=
  (List.range (dist.length - 1)).map (fun i =>
    XmlNode.element "quantile"
      [("number", toString (i + 1)),
       ("mean", (dist.getD (i + 1) ("", "")).2),
       ("lower-bound", (dist.getD i ("", "")).1),
       ("upper-bound", (dist.getD (i + 1) ("", "")).1)] [])

/-- The `measure` section built by `ReportUncertainty` (the `number`
attribute carries the signed `int num_bins`, `-1` on an empty sample). -/
def uncertMeasure (ft_name : String) (ua : UncertaintyAnalysis) : XmlNode :=
  XmlNode.element "measure" [("name", ft_name)]
    ((if ua.warnings != "" then [XmlNode.element "warning" [] [XmlNode.text ua.warnings]]
      else []) ++
     [XmlNode.element "mean" [("value", ua.mean)] [],
      XmlNode.element "standard-deviation" [("value", ua.sigma)] [],
      XmlNode.element "confidence-range"
        [("percentage", "95"),
         ("lower-bound", ua.confidence_interval.1),
         ("upper-bound", ua.confidence_interval.2)] [],
      XmlNode.element "quantiles"
        [("number", toString ((ua.distribution.length : Int) - 1))]
        (quantileNodes ua.distribution)])

/-- `Reporter::ReportUncertainty`: appends the `measure` section under the
(unique) `results` node, then attaches the uncertainty elapsed time to the
last (`back()`) `calculation-time` entry of the performance log. -/
def Reporter.ReportUncertainty (ft_name : String) (uncert_analysis : UncertaintyAnalysis)
    (doc : XmlDoc) : Outcome XmlDoc :=
  match doc with
  | none => .aborted
  | some root =>
    if (selectPath [root] ["results"]).length == 1 then
      let root1 := updateLastAtPath
        (fun n => n.addChild (uncertMeasure ft_name uncert_analysis)) root ["results"]
      if (selectPath [root1] ["information", "performance", "calculation-time"]).isEmpty
      then .aborted
      else .ok (some (updateLastAtPath
        (fun n => n.addChild
          (XmlNode.element "uncertainty" [] [XmlNode.text uncert_analysis.p_time_]))
        root1 ["information", "performance", "calculation-time"]))
    else .aborted

/-! ### Association-list lemmas -/

theorem lookupList_append {κ α : Type} [DecidableEq κ] (l₁ l₂ : List (κ × α)) (k : κ) :
    (lookupList (l₁ ++ l₂) k).isSome =
      ((lookupList l₁ k).isSome || (lookupList l₂ k).isSome) := by
  induction l₁ with
  | nil => simp [lookupList]
  | cons h t ih =>
    obtain ⟨k', v⟩ := h
    by_cases hk : k' = k <;> simp [lookupList, hk, ih]

theorem lookupList_mapInsert {κ α : Type} [DecidableEq κ]
    (l : List (κ × α)) (k s : κ) (v : α) :
    (lookupList (mapInsert l k v) s).isSome = true ↔
      (lookupList l s).isSome = true ∨ s = k := by
  unfold mapInsert
  by_cases hk : (lookupList l k).isSome
  · simp only [hk, if_true]
    constructor
    · exact Or.inl
    · rintro (h | rfl)
      · exact h
      · exact hk
  · simp only [hk, if_false, Bool.false_eq_true, lookupList_append]
    by_cases hs : k = s
    · subst hs; simp [lookupList]
    · have hs' : ¬s = k := fun hc => hs hc.symm
      simp [lookupList, hs, hs']

/-! ### `AddGate` state lemmas -/

theorem AddGate_primary (ft : FaultTree) (g : Event) :
    (ft.AddGate g).1.primary_events_ = ft.primary_events_ := by
  unfold FaultTree.AddGate
  split
  · rfl
  · split
    · rfl
    · split
      · rfl
      · rfl

theorem AddGate_lock (ft : FaultTree) (g : Event) :
    (ft.AddGate g).1.lock_ = ft.lock_ := by
  unfold FaultTree.AddGate
  split
  · rfl
  · split
    · rfl
    · split
      · rfl
      · rfl

theorem AddGate_top (ft : FaultTree) (g : Event) (h : ft.top_event_id_ ≠ "") :
    (ft.AddGate g).1.top_event_ = ft.top_event_ ∧
    (ft.AddGate g).1.top_event_id_ = ft.top_event_id_ := by
  unfold FaultTree.AddGate
  by_cases hl : ft.lock_ = true
  · simp [hl]
  · simp only [hl, if_false, if_neg h]
    by_cases hd : (lookupList ft.inter_events_ g.id).isSome = true ∨ g.id = ft.top_event_id_
    · rw [if_pos hd]; exact ⟨rfl, rfl⟩
    · rw [if_neg hd]; exact ⟨rfl, rfl⟩

theorem addGateSeq_primary (gs : List Event) (ft : FaultTree) :
    (addGateSeq ft gs).1.primary_events_ = ft.primary_events_ := by
  induction gs generalizing ft with
  | nil => rfl
  | cons g gs ih =>
    exact (ih (ft.AddGate g).1).trans (AddGate_primary ft g)

theorem addGateSeq_inv (gs : List Event) (ft : FaultTree) (h : ft.top_event_id_ ≠ "") :
    (addGateSeq ft gs).1.top_event_ = ft.top_event_ ∧
    (addGateSeq ft gs).1.top_event_id_ = ft.top_event_id_ ∧
    (addGateSeq ft gs).1.lock_ = ft.lock_ := by
  induction gs generalizing ft with
  | nil => exact ⟨rfl, rfl, rfl⟩
  | cons g gs ih =>
    have hg := AddGate_top ft g h
    have h' : (ft.AddGate g).1.top_event_id_ ≠ "" := by rw [hg.2]; exact h
    obtain ⟨a, b, c⟩ := ih (ft.AddGate g).1 h'
    exact ⟨a.trans hg.1, b.trans hg.2, c.trans (AddGate_lock ft g)⟩

/-! ### `GatherPrimaryEvents` lemmas -/

theorem gather_ok_elim {ft ft' : FaultTree} (h : ft.GatherPrimaryEvents = .ok ft') :
    ∃ top p1, ft.top_event_ = some top ∧
      GetPrimaryEvents ft.inter_events_ ft.primary_events_ top.children = some p1 ∧
      gatherInter ft.inter_events_ p1 ft.inter_events_ = some ft'.primary_events_ ∧
      ft'.top_event_ = ft.top_event_ ∧ ft'.top_event_id_ = ft.top_event_id_ ∧
      ft'.inter_events_ = ft.inter_events_ ∧ ft'.lock_ = true := by
  unfold FaultTree.GatherPrimaryEvents at h
  split at h
  · simp at h
  · rename_i top htop
    split at h
    · simp at h
    · rename_i p1 h1
      split at h
      · simp at h
      · rename_i p2 h2
        cases h
        exact ⟨top, p1, htop, h1, h2, rfl, rfl, rfl, rfl⟩

theorem GetPrimaryEvents_lookup (inter : List (String × Event)) :
    ∀ (children prim prim' : List (String × Event)),
      GetPrimaryEvents inter prim children = some prim' → ∀ s,
      ((lookupList prim' s).isSome = true ↔
        (lookupList prim s).isSome = true ∨
        (s ∈ children.map Prod.fst ∧ lookupList inter s = none)) := by
  intro children
  induction children with
  | nil =>
    intro prim prim' h s
    rw [GetPrimaryEvents] at h
    cases h
    simp
  | cons hd tl ih =>
    intro prim prim' h s
    obtain ⟨cid, cev⟩ := hd
    rw [GetPrimaryEvents] at h
    split at h
    case isTrue hin =>
      rw [ih prim prim' h s]
      by_cases hs : s = cid
      · subst hs
        have : lookupList inter s ≠ none := by
          intro hc; rw [hc] at hin; simp at hin
        simp [this]
      · simp [hs]
    case isFalse hni =>
      cases hcast : cev.asPrimary with
      | none => rw [hcast] at h; simp at h
      | some p =>
        rw [hcast] at h
        rw [ih (mapInsert prim cid p) prim' h s, lookupList_mapInsert]
        have hnone : lookupList inter cid = none :=
          Option.not_isSome_iff_eq_none.mp (by simpa using hni)
        by_cases hs : s = cid
        · subst hs; simp [hnone]
        · simp [hs]

theorem gatherInter_lookup (inter : List (String × Event)) :
    ∀ (gl : List (String × Event)) (prim prim' : List (String × Event)),
      gatherInter inter prim gl = some prim' → ∀ s,
      ((lookupList prim' s).isSome = true ↔
        (lookupList prim s).isSome = true ∨
        (s ∈ gl.flatMap (fun p => p.2.children.map Prod.fst) ∧
          lookupList inter s = none)) := by
  intro gl
  induction gl with
  | nil =>
    intro prim prim' h s
    rw [gatherInter] at h
    cases h
    simp
  | cons hd tl ih =>
    intro prim prim' h s
    obtain ⟨gid, g⟩ := hd
    rw [gatherInter] at h
    cases h1 : GetPrimaryEvents inter prim g.children with
    | none => rw [h1] at h; simp at h
    | some p1 =>
      rw [h1] at h
      rw [ih p1 prim' h s, GetPrimaryEvents_lookup inter g.children prim p1 h1 s]
      simp only [List.flatMap_cons, List.mem_append]
      tauto

/-! ### Concrete fault trees used by claim instances -/

/-- A tree built by one successful `AddGate`: top gate `T` with one primary
child `P`. -/
def oneGateTree : FaultTree :=
  (addGateSeq (newFaultTree "t") [Event.gate "T" [("P", Event.basic "P" "P")]]).1

/-- The state of `oneGateTree` after a successful `GatherPrimaryEvents`. -/
def oneGateTreeFinal : FaultTree :=
  { name_ := "t"
    top_event_ := some (Event.gate "T" [("P", Event.basic "P" "P")])
    top_event_id_ := "T"
    inter_events_ := []
    primary_events_ := [("P", Event.basic "P" "P")]
    lock_ := true
    warnings_ := "" }

/-- A tree whose top gate `T` has a primary child that reuses the top
gate's identifier `T` (nothing in `AddGate` forbids a primary event from
sharing a gate's name). -/
def topIdChildTree : FaultTree :=
  (addGateSeq (newFaultTree "t") [Event.gate "T" [("T", Event.basic "T" "T")]]).1

/-- The state of `topIdChildTree` after a successful `GatherPrimaryEvents`. -/
def topIdChildTreeFinal : FaultTree :=
  { name_ := "t"
    top_event_ := some (Event.gate "T" [("T", Event.basic "T" "T")])
    top_event_id_ := "T"
    inter_events_ := []
    primary_events_ := [("T", Event.basic "T" "T")]
    lock_ := true
    warnings_ := "" }

/-- A tree whose first added gate carries the empty identifier — the
value `AddGate` uses as its internal "no top gate yet" sentinel. -/
def emptyIdTopTree : FaultTree :=
  ((newFaultTree "t").AddGate (Event.gate "" [])).1

/-- A tree whose top gate has a child that is an unregistered gate, so the
`dynamic_pointer_cast<PrimaryEvent>` of `GetPrimaryEvents` fails. -/
def unregisteredChildTree : FaultTree :=
  (addGateSeq (newFaultTree "t") [Event.gate "TOP" [("G2", Event.gate "G2" [])]]).1

/-- A locked (finalized) empty tree. -/
def lockedEmptyTree : FaultTree :=
  { newFaultTree "t" with lock_ := true }

/-! ### Claim C2 -/

/-- C2 counterexample: for the tree `topIdChildTree`, built by one
successful `AddGate` call, finalization succeeds and the primary-event
mapping DOES contain the top gate's identifier `T` — the claim's
characterization "not … the top gate's identifier" excludes it, so the
claim as stated is false: `GetPrimaryEvents` screens children only against
the intermediate-gate mapping. -/
theorem claim2_counterexample :
    topIdChildTree.GatherPrimaryEvents = .ok topIdChildTreeFinal ∧
    topIdChildTreeFinal.top_event_id_ = "T" ∧
    (lookupList topIdChildTreeFinal.primary_events_ "T").isSome = true :=
  ⟨rfl, rfl, rfl⟩

/-- C2 (amended): for every fault tree built by a sequence of `AddGate`
calls on a fresh tree and then successfully finalized, the primary-event
mapping contains exactly those child identifiers reachable in one hop from
the top gate or any intermediate gate that are not intermediate-gate
identifiers of the tree (the top gate's identifier is NOT screened out). -/
theorem claim2_gather_primary_exact (nm : String) (gs : List Event) (ft' : FaultTree)
    (h : (addGateSeq (newFaultTree nm) gs).1.GatherPrimaryEvents = .ok ft') (s : String) :
    (lookupList ft'.primary_events_ s).isSome = true ↔
      (s ∈ ft'.oneHopChildIds ∧ lookupList ft'.inter_events_ s = none) := by
  obtain ⟨top, p1, htop, hA, hB, ht', htid', hi', hl'⟩ := gather_ok_elim h
  have hprim : (addGateSeq (newFaultTree nm) gs).1.primary_events_ = [] :=
    addGateSeq_primary gs (newFaultTree nm)
  rw [hprim] at hA
  have e1 := GetPrimaryEvents_lookup _ top.children [] p1 hA s
  have e2 := gatherInter_lookup _ _ p1 ft'.primary_events_ hB s
  rw [e1] at e2
  rw [e2]
  unfold FaultTree.oneHopChildIds
  rw [ht', htop, hi']
  simp only [lookupList, Option.isSome_none, Bool.false_eq_true, false_or,
    List.mem_append]
  tauto

/-- C2 witness: the amended theorem applied to the concrete one-gate tree
at identifier `P`. -/
theorem claim2_witness :
    (lookupList oneGateTreeFinal.primary_events_ "P").isSome = true ↔
      ("P" ∈ oneGateTreeFinal.oneHopChildIds ∧
        lookupList oneGateTreeFinal.inter_events_ "P" = none) :=
  claim2_gather_primary_exact "t" [Event.gate "T" [("P", Event.basic "P" "P")]]
    oneGateTreeFinal rfl "P"

/-! ### Claim C3 -/

/-- C3 counterexample: on a fresh tree whose first gate has the empty
identifier, a subsequent call with the novel identifier `G` (distinct from
the top identifier and from every intermediate identifier) does NOT insert
into the intermediate mapping — it silently replaces the top gate, because
`AddGate` uses `top_event_id_ == ""` as its "no top yet" test. -/
theorem claim3_counterexample :
    emptyIdTopTree.top_event_ = some (Event.gate "" []) ∧
    (Event.gate "G" []).id ≠ emptyIdTopTree.top_event_id_ ∧
    lookupList emptyIdTopTree.inter_events_ "G" = none ∧
    (emptyIdTopTree.AddGate (Event.gate "G" [])).2 = none ∧
    (emptyIdTopTree.AddGate (Event.gate "G" [])).1.inter_events_ = [] ∧
    (emptyIdTopTree.AddGate (Event.gate "G" [])).1.top_event_ = some (Event.gate "G" []) :=
  ⟨rfl, by decide, rfl, rfl, rfl, rfl⟩

/-- C3 (amended): for every `AddGate` sequence on a fresh tree whose FIRST
gate has a nonempty identifier (the empty string being the internal no-top
sentinel): the first gate becomes and stays the top gate; a further call
whose identifier differs from the top identifier and is absent from the
intermediate mapping inserts the gate into the intermediate mapping; a
further call whose identifier equals the top identifier or a registered
intermediate identifier always fails with the duplicate-definition
`ValueError`, never silently succeeding. -/
theorem claim3_addGate_sequence (nm : String) (g0 : Event) (gs : List Event) (g : Event)
    (h0 : g0.id ≠ "") :
    (addGateSeq (newFaultTree nm) (g0 :: gs)).1.top_event_ = some g0 ∧
    (addGateSeq (newFaultTree nm) (g0 :: gs)).1.top_event_id_ = g0.id ∧
    (g.id ≠ g0.id →
      lookupList (addGateSeq (newFaultTree nm) (g0 :: gs)).1.inter_events_ g.id = none →
      (addGateSeq (newFaultTree nm) (g0 :: gs)).1.AddGate g =
        ({ (addGateSeq (newFaultTree nm) (g0 :: gs)).1 with
            inter_events_ :=
              mapInsert (addGateSeq (newFaultTree nm) (g0 :: gs)).1.inter_events_ g.id g },
         none)) ∧
    ((g.id = g0.id ∨
        (lookupList (addGateSeq (newFaultTree nm) (g0 :: gs)).1.inter_events_ g.id).isSome
          = true) →
      (addGateSeq (newFaultTree nm) (g0 :: gs)).1.AddGate g =
        ((addGateSeq (newFaultTree nm) (g0 :: gs)).1,
         some (.valueError "Trying to doubly define a gate"))) := by
  have hstep : (addGateSeq (newFaultTree nm) (g0 :: gs)).1 =
      (addGateSeq { newFaultTree nm with
        top_event_ := some g0, top_event_id_ := g0.id } gs).1 := rfl
  obtain ⟨A, B, C⟩ := addGateSeq_inv gs
    { newFaultTree nm with top_event_ := some g0, top_event_id_ := g0.id } h0
  have hl : (addGateSeq (newFaultTree nm) (g0 :: gs)).1.lock_ = false := by
    rw [hstep]; exact C
  have htid : (addGateSeq (newFaultTree nm) (g0 :: gs)).1.top_event_id_ = g0.id := by
    rw [hstep]; exact B
  refine ⟨by rw [hstep]; exact A, htid, ?_, ?_⟩
  · intro hne hnone
    unfold FaultTree.AddGate
    rw [if_neg (by rw [hl]; exact Bool.false_ne_true)]
    rw [if_neg (by rw [htid]; exact h0)]
    rw [if_neg ?_]
    rintro (hx | hx)
    · rw [hnone] at hx; simp at hx
    · exact hne (hx.trans htid)
  · intro hdup
    unfold FaultTree.AddGate
    rw [if_neg (by rw [hl]; exact Bool.false_ne_true)]
    rw [if_neg (by rw [htid]; exact h0)]
    rw [if_pos ?_]
    rcases hdup with hx | hx
    · exact Or.inr (by rw [htid]; exact hx)
    · exact Or.inl hx

/-- C3 witness: the amended theorem applied to the one-gate sequence with
top gate `T`: the novel gate `G` is inserted into the intermediate mapping
and the duplicate `T` raises the duplicate-definition error. -/
theorem claim3_witness :
    ((addGateSeq (newFaultTree "t") [Event.gate "T" []]).1.AddGate (Event.gate "G" []) =
      ({ (addGateSeq (newFaultTree "t") [Event.gate "T" []]).1 with
          inter_events_ :=
            mapInsert (addGateSeq (newFaultTree "t") [Event.gate "T" []]).1.inter_events_
              "G" (Event.gate "G" []) },
       none)) ∧
    ((addGateSeq (newFaultTree "t") [Event.gate "T" []]).1.AddGate (Event.gate "T" []) =
      ((addGateSeq (newFaultTree "t") [Event.gate "T" []]).1,
       some (.valueError "Trying to doubly define a gate"))) :=
  ⟨(claim3_addGate_sequence "t" (Event.gate "T" []) [] (Event.gate "G" [])
      (by decide)).2.2.1 (by decide) rfl,
   (claim3_addGate_sequence "t" (Event.gate "T" []) [] (Event.gate "T" [])
      (by decide)).2.2.2 (Or.inl rfl)⟩

/-! ### Claim C7 -/

/-- C7: on a tree whose top gate claims a child (`G2`) that is neither a
registered gate nor a primary event, `GatherPrimaryEvents` dies on the
failed `assert(primary_event != 0)` — a process abort — and never surfaces
any `ScramError` to the caller, although the source's own `@todo` comment
says it "Must change to an exception that indicates un-initialized event". -/
theorem claim7_assert_abort :
    unregisteredChildTree.GatherPrimaryEvents = .aborted ∧
    ∀ e : ScramError, unregisteredChildTree.GatherPrimaryEvents ≠ .raised e :=
  ⟨rfl, fun _ h => Outcome.noConfusion h⟩

/-! ### Claim C8 -/

/-- C8: after a successful `GatherPrimaryEvents` (finalization), every
`AddGate` call — whatever the gate's identifier — fails with the
locked-tree `scram::Error` and leaves the tree unchanged. -/
theorem claim8_locked_after_finalize (ft ft' : FaultTree) (g : Event)
    (h : ft.GatherPrimaryEvents = .ok ft') :
    ft'.AddGate g = (ft', some (.error "The tree is locked. No change is allowed.")) := by
  obtain ⟨_, _, _, _, _, _, _, _, hl⟩ := gather_ok_elim h
  unfold FaultTree.AddGate
  rw [if_pos hl]

/-- C8 witness: the finalized one-gate tree rejects both a novel gate
(`NEW`) and a duplicate of its top gate (`T`) with the locked-tree error. -/
theorem claim8_witness :
    oneGateTreeFinal.AddGate (Event.gate "NEW" []) =
      (oneGateTreeFinal, some (.error "The tree is locked. No change is allowed.")) ∧
    oneGateTreeFinal.AddGate (Event.gate "T" []) =
      (oneGateTreeFinal, some (.error "The tree is locked. No change is allowed.")) :=
  ⟨claim8_locked_after_finalize oneGateTree oneGateTreeFinal (Event.gate "NEW" []) rfl,
   claim8_locked_after_finalize oneGateTree oneGateTreeFinal (Event.gate "T" []) rfl⟩

/-! ### Claim C10 -/

/-- C10: whenever `AddGate` raises an error (locked-tree or duplicate
definition), the tree's observable state — top gate, top-gate identifier,
intermediate mapping, primary mapping and lock flag — is exactly what it
was before the call: both throws precede every mutation in the method. -/
theorem claim10_failed_addGate_state (ft : FaultTree) (g : Event) (e : ScramError)
    (h : (ft.AddGate g).2 = some e) :
    (ft.AddGate g).1.top_event_ = ft.top_event_ ∧
    (ft.AddGate g).1.top_event_id_ = ft.top_event_id_ ∧
    (ft.AddGate g).1.inter_events_ = ft.inter_events_ ∧
    (ft.AddGate g).1.primary_events_ = ft.primary_events_ ∧
    (ft.AddGate g).1.lock_ = ft.lock_ := by
  unfold FaultTree.AddGate at h ⊢
  by_cases h1 : ft.lock_ = true
  · rw [if_pos h1]; exact ⟨rfl, rfl, rfl, rfl, rfl⟩
  · rw [if_neg h1] at h ⊢
    by_cases h2 : ft.top_event_id_ = ""
    · rw [if_pos h2] at h; simp at h
    · rw [if_neg h2] at h ⊢
      by_cases h3 : (lookupList ft.inter_events_ g.id).isSome = true ∨
          g.id = ft.top_event_id_
      · rw [if_pos h3]; exact ⟨rfl, rfl, rfl, rfl, rfl⟩
      · rw [if_neg h3] at h; simp at h

/-! ### Update-at-position lemmas for the XML model -/

theorem updateFirstWhere_append_cons {α : Type} (p : α → Bool) (f : α → α)
    (l₁ l₂ : List α) (a : α)
    (h₁ : ∀ x ∈ l₁, p x = false) (ha : p a = true) :
    updateFirstWhere p f (l₁ ++ a :: l₂) = l₁ ++ f a :: l₂ := by
  induction l₁ with
  | nil => simp [updateFirstWhere, ha]
  | cons b t ih =>
    have hb : p b = false := h₁ b (by simp)
    simp only [List.cons_append, updateFirstWhere, hb, Bool.false_eq_true, if_false]
    exact congrArg (fun l => b :: l) (ih (fun x hx => h₁ x (by simp [hx])))

theorem updateLastWhere_append_cons {α : Type} (p : α → Bool) (f : α → α)
    (l₁ l₂ : List α) (a : α)
    (ha : p a = true) (h₂ : ∀ x ∈ l₂, p x = false) :
    updateLastWhere p f (l₁ ++ a :: l₂) = l₁ ++ f a :: l₂ := by
  unfold updateLastWhere
  rw [show (l₁ ++ a :: l₂).reverse = l₂.reverse ++ a :: l₁.reverse by simp]
  rw [updateFirstWhere_append_cons p f _ _ a (fun x hx => h₂ x (by simpa using hx)) ha]
  simp

/-- C10 witness: the theorem applied to a locked tree and a concrete gate. -/
theorem claim10_witness :
    (lockedEmptyTree.AddGate (Event.gate "G" [])).1.top_event_ =
      lockedEmptyTree.top_event_ ∧
    (lockedEmptyTree.AddGate (Event.gate "G" [])).1.top_event_id_ =
      lockedEmptyTree.top_event_id_ ∧
    (lockedEmptyTree.AddGate (Event.gate "G" [])).1.inter_events_ =
      lockedEmptyTree.inter_events_ ∧
    (lockedEmptyTree.AddGate (Event.gate "G" [])).1.primary_events_ =
      lockedEmptyTree.primary_events_ ∧
    (lockedEmptyTree.AddGate (Event.gate "G" [])).1.lock_ = lockedEmptyTree.lock_ :=
  claim10_failed_addGate_state lockedEmptyTree (Event.gate "G" [])
    (.error "The tree is locked. No change is allowed.") rfl

/-! ### Claim C1 -/

/-- The basic-event map of the round-trip instance: `A` is a plain basic
event; `B` resolves to a CCF composite with members `B1`, `B2` and group
size 3. -/
def c1BasicEvents : List (String × Event) :=
  [("A", Event.basic "A" "A"), ("B", Event.ccf "B" "B" "CCF-GRP" ["B1", "B2"] 3)]

/-- The cut-set result of the round-trip instance: the single minimal cut
set `{"A", "not B"}` (in `std::set<std::string>` order). -/
def c1Fta : FaultTreeAnalysis :=
  { num_basic_events_ := 2
    min_cut_sets_ := [["A", "not B"]]
    warnings := ""
    analysis_time_ := "1.5"
    basic_events_ := c1BasicEvents }

/-- A minimal model summary for the concrete report pipelines. -/
def c1Risk : RiskAnalysis :=
  { gates_ := 1, basic_events_ := 2, primary_events_ := 2, ccf_groups_ := 1
    fault_trees_ := 1 }

/-- A configuration with every optional analysis disabled. -/
def c1Settings : Settings :=
  { limit_order_ := 4
    ccf_analysis_ := false
    probability_analysis_ := false
    importance_analysis_ := false
    uncertainty_analysis_ := false
    approx_ := "no"
    cut_off_ := "1e-8"
    num_sums_ := 7
    trials_ := 100 }

/-- C1: (a) every member string of the form `"not " ++ t` is wrapped in a
negation grouping node and resolved by the identifier `t` obtained by
stripping the prefix (a failed resolution is the end-iterator crash);
(b) round-trip instance: for the cut set `{"A", "not B"}` where `B`
resolves to a CCF composite with members `B1`, `B2` and group size 3, the
rendered product has one direct basic-event child `A` and one negated
ccf-event child carrying the group name, order 2, group-size 3 and exactly
the two basic-event children `B1`, `B2`. -/
theorem claim1_member_rendering :
    (∀ (bes : List (String × Event)) (t : String),
      renderMember bes ("not " ++ t) =
        (lookupList bes t).map
          (fun be => XmlNode.element "not" [] [renderBasicOrCcf be])) ∧
    (∃ d0 r1,
      Reporter.SetupReport c1Risk c1Settings "t0" "v0" none = .ok d0 ∧
      Reporter.ReportFta "FT" c1Fta none d0 = .ok (some r1) ∧
      selectPath [r1] ["results", "sum-of-products", "product"] =
        [XmlNode.element "product" [("order", "2")]
          [XmlNode.element "basic-event" [("name", "A")] [],
           XmlNode.element "not" []
             [XmlNode.element "ccf-event"
               [("ccf-group", "CCF-GRP"), ("order", "2"), ("group-size", "3")]
               [XmlNode.element "basic-event" [("name", "B1")] [],
                XmlNode.element "basic-event" [("name", "B2")] []]]]]) := by
  constructor
  · intro bes t
    have hb : renderMember bes ("not " ++ t) =
        (match lookupList bes t with
         | none => none
         | some basic_event =>
             some (XmlNode.element "not" [] [renderBasicOrCcf basic_event])) := rfl
    rw [hb]
    cases lookupList bes t <;> rfl
  · exact ⟨_, _, rfl, rfl, rfl⟩

/-! ### Claim C4 -/

/-- The names of the `calculated-quantity` blocks of a report document's
information section, in document order. -/
def calcQuantityNames (d : XmlNode) : List String :=
  (selectPath [d] ["information", "calculated-quantity"]).filterMap
    (fun n => getAttrVal n "name")

/-- C4: `SetupReport` on a non-empty document always raises the
already-populated `LogicError`; on an empty document it writes exactly one
`calculated-quantity` block for minimal-cut-set analysis plus exactly one
additional block per enabled configuration flag (CCF, probability,
importance, uncertainty), matching the four flags 1:1. -/
theorem claim4_setup_quantities (risk : RiskAnalysis) (s : Settings)
    (timeStr versionStr : String) :
    (∀ r : XmlNode, Reporter.SetupReport risk s timeStr versionStr (some r) =
      .raised (.logicError "The passed document is not empty for reporting")) ∧
    (∃ d : XmlNode,
      Reporter.SetupReport risk s timeStr versionStr none = .ok (some d) ∧
      calcQuantityNames d =
        ["Minimal Cut Set Analysis"] ++
        (if s.ccf_analysis_ then ["CCF Analysis"] else []) ++
        (if s.probability_analysis_ then ["Probability Analysis"] else []) ++
        (if s.importance_analysis_ then ["Importance Analysis"] else []) ++
        (if s.uncertainty_analysis_ then ["Uncertainty Analysis"] else []) ∧
      (calcQuantityNames d).length =
        1 + (if s.ccf_analysis_ then 1 else 0) +
        (if s.probability_analysis_ then 1 else 0) +
        (if s.importance_analysis_ then 1 else 0) +
        (if s.uncertainty_analysis_ then 1 else 0)) := by
  constructor
  · intro r; rfl
  · obtain ⟨lo, cf, pr, im, un, ap, co, ns, tr⟩ := s
    refine ⟨_, rfl, ?_, ?_⟩ <;>
      cases cf <;> cases pr <;> cases im <;> cases un <;> rfl

/-! ### Claim C5 -/

/-- An uncertainty result with the spec's length-5 distribution sample. -/
def c5Ua : UncertaintyAnalysis :=
  { warnings := ""
    mean := "m"
    sigma := "s"
    confidence_interval := ("cl", "cu")
    distribution := [("b0", "v0"), ("b1", "v1"), ("b2", "v2"), ("b3", "v3"), ("b4", "v4")]
    p_time_ := "tu" }

/-- C5: the quantile table of `ReportUncertainty` over a distribution
sample of length N has exactly N−1 entries; the entry at 0-based position
i is numbered i+1 with lower bound sample[i].boundary, upper bound
sample[i+1].boundary and value sample[i+1].value (i.e. the entry numbered
j has bounds sample[j−1], sample[j] and value sample[j]); the `quantiles`
node of the measure section carries exactly these entries; and the length-5
instance run through the full report pipeline yields exactly 4 entries
numbered 1–4. -/
theorem claim5_quantiles :
    (∀ dist : List (String × String), (quantileNodes dist).length = dist.length - 1) ∧
    (∀ (dist : List (String × String)) (i : Nat), i + 1 < dist.length →
      (quantileNodes dist)[i]? = some (XmlNode.element "quantile"
        [("number", toString (i + 1)),
         ("mean", (dist.getD (i + 1) ("", "")).2),
         ("lower-bound", (dist.getD i ("", "")).1),
         ("upper-bound", (dist.getD (i + 1) ("", "")).1)] [])) ∧
    (∀ (nm : String) (ua : UncertaintyAnalysis),
      childrenNamed (uncertMeasure nm ua) "quantiles" =
        [XmlNode.element "quantiles"
          [("number", toString ((ua.distribution.length : Int) - 1))]
          (quantileNodes ua.distribution)]) ∧
    (∃ d0 d1 r2,
      Reporter.SetupReport c1Risk c1Settings "t0" "v0" none = .ok d0 ∧
      Reporter.ReportFta "FT" c1Fta none d0 = .ok d1 ∧
      Reporter.ReportUncertainty "FT" c5Ua d1 = .ok (some r2) ∧
      selectPath [r2] ["results", "measure", "quantiles", "quantile"] =
        [XmlNode.element "quantile"
          [("number", "1"), ("mean", "v1"),
           ("lower-bound", "b0"), ("upper-bound", "b1")] [],
         XmlNode.element "quantile"
          [("number", "2"), ("mean", "v2"),
           ("lower-bound", "b1"), ("upper-bound", "b2")] [],
         XmlNode.element "quantile"
          [("number", "3"), ("mean", "v3"),
           ("lower-bound", "b2"), ("upper-bound", "b3")] [],
         XmlNode.element "quantile"
          [("number", "4"), ("mean", "v4"),
           ("lower-bound", "b3"), ("upper-bound", "b4")] []]) := by
  refine ⟨?_, ?_, ?_, ⟨_, _, _, rfl, rfl, rfl, rfl⟩⟩
  · intro dist
    simp [quantileNodes]
  · intro dist i h
    unfold quantileNodes
    rw [List.getElem?_map, List.getElem?_range (by omega)]
    rfl
  · intro nm ua
    unfold uncertMeasure
    by_cases hw : (ua.warnings != "") = true
    · rw [if_pos hw]; rfl
    · rw [if_neg hw]; rfl

/-- C5 witness: the positional characterization applied to the length-5
sample at position 0. -/
theorem claim5_witness :
    (quantileNodes c5Ua.distribution)[0]? = some (XmlNode.element "quantile"
      [("number", "1"), ("mean", "v1"),
       ("lower-bound", "b0"), ("upper-bound", "b1")] []) :=
  claim5_quantiles.2.1 c5Ua.distribution 0 (by decide)

/-! ### Claim C9 -/

/-- C9: `ReportOrphans` with an empty set always dies on the failed
`assert` (a precondition rejection) and in particular never attaches a
header-only warning to the document; with a non-empty set it concatenates
every orphan's display identifier into one warning string attached to the
(unique) information section. -/
theorem claim9_orphans (orphans : List Event) (c₁ c₂ : List XmlNode)
    (rname : String) (rattrs iattrs : List (String × String)) (ich : List XmlNode)
    (hne : orphans ≠ [])
    (h₁ : ∀ x ∈ c₁, childNamed "information" x = false)
    (h₂ : ∀ x ∈ c₂, childNamed "information" x = false) :
    (∀ doc : XmlDoc, Reporter.ReportOrphans [] doc = .aborted) ∧
    Reporter.ReportOrphans orphans
      (some (XmlNode.element rname rattrs
        (c₁ ++ XmlNode.element "information" iattrs ich :: c₂))) =
      .ok (some (XmlNode.element rname rattrs
        (c₁ ++ XmlNode.element "information" iattrs
          (ich ++ [XmlNode.element "warning" []
            [XmlNode.text (orphans.foldl
              (fun acc e => acc ++ e.orig_id ++ " ")
              "WARNING! Found unused primary events: ")]]) :: c₂))) := by
  constructor
  · intro doc; rfl
  · have hfil : (c₁ ++ XmlNode.element "information" iattrs ich :: c₂).filter
        (childNamed "information") = [XmlNode.element "information" iattrs ich] := by
      rw [List.filter_append, List.filter_eq_nil_iff.mpr (by simpa using h₁),
        List.filter_cons_of_pos (by rfl), List.filter_eq_nil_iff.mpr (by simpa using h₂)]
      rfl
    have hsel : selectPath
        [XmlNode.element rname rattrs (c₁ ++ XmlNode.element "information" iattrs ich :: c₂)]
        ["information"] = [XmlNode.element "information" iattrs ich] := by
      simp only [selectPath, List.flatMap_cons, List.flatMap_nil, List.append_nil,
        childrenNamed]
      exact hfil
    have key : Reporter.ReportOrphans orphans
        (some (XmlNode.element rname rattrs
          (c₁ ++ XmlNode.element "information" iattrs ich :: c₂))) =
        (if ((selectPath [XmlNode.element rname rattrs
              (c₁ ++ XmlNode.element "information" iattrs ich :: c₂)]
              ["information"]).length == 1) = true then
          Outcome.ok (some (updateLastAtPath
            (fun n => n.addChild (XmlNode.element "warning" []
              [XmlNode.text (orphans.foldl
                (fun acc e => acc ++ e.orig_id ++ " ")
                "WARNING! Found unused primary events: ")]))
            (XmlNode.element rname rattrs
              (c₁ ++ XmlNode.element "information" iattrs ich :: c₂))
            ["information"]))
         else Outcome.aborted) := by
      unfold Reporter.ReportOrphans
      rw [if_neg (by simpa [List.isEmpty_iff] using hne)]
    rw [key, hsel, if_pos (by rfl)]
    simp only [updateLastAtPath]
    rw [updateLastWhere_append_cons _ _ c₁ c₂ _ (by rfl)
      (fun x hx => by rw [h₂ x hx]; rfl)]
    rfl

/-- C9 witness: one orphan `O1` on a minimal set-up document. -/
theorem claim9_witness :
    Reporter.ReportOrphans [Event.basic "O1" "O1"]
      (some (XmlNode.element "report" [] [XmlNode.element "information" [] []])) =
      .ok (some (XmlNode.element "report" []
        [XmlNode.element "information" []
          [XmlNode.element "warning" []
            [XmlNode.text "WARNING! Found unused primary events: O1 "]]])) :=
  (claim9_orphans [Event.basic "O1" "O1"] [] [] "report" [] [] []
    (by simp) (by simp) (by simp)).2

/-! ### Claim C6 -/

theorem updateLastWhere_pair {α : Type} (q : α → Bool) (g : α → α) (a b : α)
    (ha : q a = true) (hb : q b = false) :
    updateLastWhere q g [a, b] = [g a, b] := by
  simp [updateLastWhere, updateFirstWhere, ha, hb]

/-- The `find("./performance/calculation-time")` selection below a shaped
information node: the matches are the calculation-time children of the
unique performance child, ending with the last entry `ct`. -/
theorem selectPath_info_shape (iattrs pattrs cattrs : List (String × String))
    (ipre ipost pre post cch : List XmlNode)
    (hipre : ∀ x ∈ ipre, childNamed "performance" x = false)
    (hipost : ∀ x ∈ ipost, childNamed "performance" x = false)
    (hpost : ∀ x ∈ post, childNamed "calculation-time" x = false) :
    selectPath
      [XmlNode.element "information" iattrs
        (ipre ++ XmlNode.element "performance" pattrs
          (pre ++ XmlNode.element "calculation-time" cattrs cch :: post) :: ipost)]
      ["performance", "calculation-time"] =
      List.filter (childNamed "calculation-time") pre ++
        XmlNode.element "calculation-time" cattrs cch :: [] := by
  have hf1 : List.filter (childNamed "performance") ipre = [] :=
    List.filter_eq_nil_iff.mpr (by simpa using hipre)
  have hf2 : List.filter (childNamed "performance") ipost = [] :=
    List.filter_eq_nil_iff.mpr (by simpa using hipost)
  have hf3 : List.filter (childNamed "calculation-time") post = [] :=
    List.filter_eq_nil_iff.mpr (by simpa using hpost)
  have hperf : List.filter (childNamed "performance")
      (ipre ++ XmlNode.element "performance" pattrs
        (pre ++ XmlNode.element "calculation-time" cattrs cch :: post) :: ipost) =
      [XmlNode.element "performance" pattrs
        (pre ++ XmlNode.element "calculation-time" cattrs cch :: post)] := by
    rw [List.filter_append, hf1, List.filter_cons_of_pos (by rfl), hf2]
    rfl
  have hctf : List.filter (childNamed "calculation-time")
      (pre ++ XmlNode.element "calculation-time" cattrs cch :: post) =
      List.filter (childNamed "calculation-time") pre ++
        XmlNode.element "calculation-time" cattrs cch :: [] := by
    rw [List.filter_append, List.filter_cons_of_pos (by rfl), hf3]
  simp only [selectPath, List.flatMap_cons, List.flatMap_nil, List.append_nil,
    childrenNamed]
  rw [hperf]
  simp only [List.flatMap_cons, List.flatMap_nil, List.append_nil, childrenNamed]
  exact hctf

/-- Applying `f` to the last match of
`./information/performance/calculation-time` below a shaped report root hits
exactly the last calculation-time entry of the unique performance node. -/
theorem updateLast_calc_time (f : XmlNode → XmlNode)
    (rattrs iattrs pattrs cattrs resattrs : List (String × String))
    (ipre ipost pre post cch resch : List XmlNode)
    (hipre : ∀ x ∈ ipre, childNamed "performance" x = false)
    (hipost : ∀ x ∈ ipost, childNamed "performance" x = false)
    (hpost : ∀ x ∈ post, childNamed "calculation-time" x = false) :
    updateLastAtPath f
      (XmlNode.element "report" rattrs
        [XmlNode.element "information" iattrs
          (ipre ++ XmlNode.element "performance" pattrs
            (pre ++ XmlNode.element "calculation-time" cattrs cch :: post) :: ipost),
         XmlNode.element "results" resattrs resch])
      ["information", "performance", "calculation-time"] =
      XmlNode.element "report" rattrs
        [XmlNode.element "information" iattrs
          (ipre ++ XmlNode.element "performance" pattrs
            (pre ++ f (XmlNode.element "calculation-time" cattrs cch) :: post) :: ipost),
         XmlNode.element "results" resattrs resch] := by
  have hsel := selectPath_info_shape iattrs pattrs cattrs ipre ipost pre post cch
    hipre hipost hpost
  have hselp : selectPath
      [XmlNode.element "performance" pattrs
        (pre ++ XmlNode.element "calculation-time" cattrs cch :: post)]
      ["calculation-time"] =
      List.filter (childNamed "calculation-time") pre ++
        XmlNode.element "calculation-time" cattrs cch :: [] := by
    have hf3 : List.filter (childNamed "calculation-time") post = [] :=
      List.filter_eq_nil_iff.mpr (by simpa using hpost)
    simp only [selectPath, List.flatMap_cons, List.flatMap_nil, List.append_nil,
      childrenNamed]
    rw [List.filter_append, List.filter_cons_of_pos (by rfl), hf3]
  have hm2 : hasMatch
      (XmlNode.element "performance" pattrs
        (pre ++ XmlNode.element "calculation-time" cattrs cch :: post))
      ["calculation-time"] = true := by
    unfold hasMatch
    rw [hselp]
    simp
  have hm1 : hasMatch
      (XmlNode.element "information" iattrs
        (ipre ++ XmlNode.element "performance" pattrs
          (pre ++ XmlNode.element "calculation-time" cattrs cch :: post) :: ipost))
      ["performance", "calculation-time"] = true := by
    unfold hasMatch
    rw [hsel]
    simp
  have E2 : updateLastAtPath f
      (XmlNode.element "performance" pattrs
        (pre ++ XmlNode.element "calculation-time" cattrs cch :: post))
      ["calculation-time"] =
      XmlNode.element "performance" pattrs
        (pre ++ f (XmlNode.element "calculation-time" cattrs cch) :: post) := by
    show XmlNode.element "performance" pattrs
      (updateLastWhere
        (fun c => childNamed "calculation-time" c && hasMatch c [])
        (fun c => updateLastAtPath f c [])
        (pre ++ XmlNode.element "calculation-time" cattrs cch :: post)) = _
    rw [updateLastWhere_append_cons _ _ pre post _ (by rfl)
      (fun x hx => by rw [hpost x hx]; rfl)]
    rfl
  have E1 : updateLastAtPath f
      (XmlNode.element "information" iattrs
        (ipre ++ XmlNode.element "performance" pattrs
          (pre ++ XmlNode.element "calculation-time" cattrs cch :: post) :: ipost))
      ["performance", "calculation-time"] =
      XmlNode.element "information" iattrs
        (ipre ++ XmlNode.element "performance" pattrs
          (pre ++ f (XmlNode.element "calculation-time" cattrs cch) :: post) :: ipost) := by
    show XmlNode.element "information" iattrs
      (updateLastWhere
        (fun c => childNamed "performance" c && hasMatch c ["calculation-time"])
        (fun c => updateLastAtPath f c ["calculation-time"])
        (ipre ++ XmlNode.element "performance" pattrs
          (pre ++ XmlNode.element "calculation-time" cattrs cch :: post) :: ipost)) = _
    rw [updateLastWhere_append_cons _ _ ipre ipost _ (by rw [hm2, Bool.and_true]; rfl)
      (fun x hx => by rw [hipost x hx]; rfl)]
    exact congrArg (fun c => XmlNode.element "information" iattrs
      (ipre ++ c :: ipost)) E2
  show XmlNode.element "report" rattrs
    (updateLastWhere
      (fun c => childNamed "information" c &&
        hasMatch c ["performance", "calculation-time"])
      (fun c => updateLastAtPath f c ["performance", "calculation-time"])
      [XmlNode.element "information" iattrs
        (ipre ++ XmlNode.element "performance" pattrs
          (pre ++ XmlNode.element "calculation-time" cattrs cch :: post) :: ipost),
       XmlNode.element "results" resattrs resch]) = _
  rw [updateLastWhere_pair _ _ _ _ (by rw [hm1, Bool.and_true]; rfl) (by rfl)]
  exact congrArg (fun c => XmlNode.element "report" rattrs
    [c, XmlNode.element "results" resattrs resch]) E1

/-- C6: `ReportImportance` and `ReportUncertainty` always attach their
elapsed-time entry to the LAST calculation-time entry of the performance
log, never to an entry looked up by the supplied tree name: on a document
whose performance log ends with calculation-time entry `ct` (for instance
tree B's entry after `ReportFta` has run for tree A and then tree B), the
importance/uncertainty time child lands on `ct` whatever `ft_name` says,
while the new importance/measure section is appended under results. -/
theorem claim6_attach_to_last (ft_name : String) (pa : ProbabilityAnalysis)
    (ua : UncertaintyAnalysis) (entries : List XmlNode)
    (rattrs iattrs pattrs cattrs resattrs : List (String × String))
    (ipre ipost pre post cch resch : List XmlNode)
    (hmapM : pa.importance.mapM (renderImportance pa) = some entries)
    (hipre : ∀ x ∈ ipre, childNamed "performance" x = false)
    (hipost : ∀ x ∈ ipost, childNamed "performance" x = false)
    (hpost : ∀ x ∈ post, childNamed "calculation-time" x = false) :
    Reporter.ReportImportance ft_name pa
      (some (XmlNode.element "report" rattrs
        [XmlNode.element "information" iattrs
          (ipre ++ XmlNode.element "performance" pattrs
            (pre ++ XmlNode.element "calculation-time" cattrs cch :: post) :: ipost),
         XmlNode.element "results" resattrs resch])) =
      .ok (some (XmlNode.element "report" rattrs
        [XmlNode.element "information" iattrs
          (ipre ++ XmlNode.element "performance" pattrs
            (pre ++ XmlNode.element "calculation-time" cattrs
              (cch ++ [XmlNode.element "importance" [] [XmlNode.text pa.imp_time_]])
              :: post) :: ipost),
         XmlNode.element "results" resattrs
           (resch ++ [XmlNode.element "importance"
             [("name", ft_name), ("basic-events", toString pa.importance.length)]
             ((if pa.warnings != "" then
                 [XmlNode.element "warning" [] [XmlNode.text pa.warnings]]
               else []) ++ entries)])])) ∧
    Reporter.ReportUncertainty ft_name ua
      (some (XmlNode.element "report" rattrs
        [XmlNode.element "information" iattrs
          (ipre ++ XmlNode.element "performance" pattrs
            (pre ++ XmlNode.element "calculation-time" cattrs cch :: post) :: ipost),
         XmlNode.element "results" resattrs resch])) =
      .ok (some (XmlNode.element "report" rattrs
        [XmlNode.element "information" iattrs
          (ipre ++ XmlNode.element "performance" pattrs
            (pre ++ XmlNode.element "calculation-time" cattrs
              (cch ++ [XmlNode.element "uncertainty" [] [XmlNode.text ua.p_time_]])
              :: post) :: ipost),
         XmlNode.element "results" resattrs
           (resch ++ [uncertMeasure ft_name ua])])) := by
  have hsel := selectPath_info_shape iattrs pattrs cattrs ipre ipost pre post cch
    hipre hipost hpost
  have hcond : ¬((selectPath
      [XmlNode.element "information" iattrs
        (ipre ++ XmlNode.element "performance" pattrs
          (pre ++ XmlNode.element "calculation-time" cattrs cch :: post) :: ipost)]
      ["performance", "calculation-time"]).isEmpty = true) := by
    rw [hsel]; simp
  constructor
  · have step1 : Reporter.ReportImportance ft_name pa
        (some (XmlNode.element "report" rattrs
          [XmlNode.element "information" iattrs
            (ipre ++ XmlNode.element "performance" pattrs
              (pre ++ XmlNode.element "calculation-time" cattrs cch :: post) :: ipost),
           XmlNode.element "results" resattrs resch])) =
        (match pa.importance.mapM (renderImportance pa) with
         | none => Outcome.aborted
         | some es =>
           if (selectPath
               [XmlNode.element "information" iattrs
                 (ipre ++ XmlNode.element "performance" pattrs
                   (pre ++ XmlNode.element "calculation-time" cattrs cch :: post)
                   :: ipost)]
               ["performance", "calculation-time"]).isEmpty = true
           then Outcome.aborted
           else Outcome.ok (some (updateLastAtPath
             (fun n => n.addChild
               (XmlNode.element "importance" [] [XmlNode.text pa.imp_time_]))
             (XmlNode.element "report" rattrs
               [XmlNode.element "information" iattrs
                 (ipre ++ XmlNode.element "performance" pattrs
                   (pre ++ XmlNode.element "calculation-time" cattrs cch :: post)
                   :: ipost),
                XmlNode.element "results" resattrs
                  (resch ++ [XmlNode.element "importance"
                    [("name", ft_name),
                     ("basic-events", toString pa.importance.length)]
                    ((if pa.warnings != "" then
                        [XmlNode.element "warning" [] [XmlNode.text pa.warnings]]
                      else []) ++ es)])])
             ["information", "performance", "calculation-time"]))) := rfl
    rw [step1, hmapM]
    show (if (selectPath
          [XmlNode.element "information" iattrs
            (ipre ++ XmlNode.element "performance" pattrs
              (pre ++ XmlNode.element "calculation-time" cattrs cch :: post) :: ipost)]
          ["performance", "calculation-time"]).isEmpty = true
      then Outcome.aborted
      else Outcome.ok (some (updateLastAtPath
        (fun n => n.addChild
          (XmlNode.element "importance" [] [XmlNode.text pa.imp_time_]))
        (XmlNode.element "report" rattrs
          [XmlNode.element "information" iattrs
            (ipre ++ XmlNode.element "performance" pattrs
              (pre ++ XmlNode.element "calculation-time" cattrs cch :: post) :: ipost),
           XmlNode.element "results" resattrs
             (resch ++ [XmlNode.element "importance"
               [("name", ft_name), ("basic-events", toString pa.importance.length)]
               ((if pa.warnings != "" then
                   [XmlNode.element "warning" [] [XmlNode.text pa.warnings]]
                 else []) ++ entries)])])
        ["information", "performance", "calculation-time"]))) = _
    rw [if_neg hcond]
    rw [updateLast_calc_time _ rattrs iattrs pattrs cattrs resattrs
      ipre ipost pre post cch _ hipre hipost hpost]
    rfl
  · have step1 : Reporter.ReportUncertainty ft_name ua
        (some (XmlNode.element "report" rattrs
          [XmlNode.element "information" iattrs
            (ipre ++ XmlNode.element "performance" pattrs
              (pre ++ XmlNode.element "calculation-time" cattrs cch :: post) :: ipost),
           XmlNode.element "results" resattrs resch])) =
        (if (selectPath
            [XmlNode.element "information" iattrs
              (ipre ++ XmlNode.element "performance" pattrs
                (pre ++ XmlNode.element "calculation-time" cattrs cch :: post) :: ipost)]
            ["performance", "calculation-time"]).isEmpty = true
         then Outcome.aborted
         else Outcome.ok (some (updateLastAtPath
           (fun n => n.addChild
             (XmlNode.element "uncertainty" [] [XmlNode.text ua.p_time_]))
           (XmlNode.element "report" rattrs
             [XmlNode.element "information" iattrs
               (ipre ++ XmlNode.element "performance" pattrs
                 (pre ++ XmlNode.element "calculation-time" cattrs cch :: post)
                 :: ipost),
              XmlNode.element "results" resattrs
                (resch ++ [uncertMeasure ft_name ua])])
           ["information", "performance", "calculation-time"]))) := rfl
    rw [step1, if_neg hcond]
    rw [updateLast_calc_time _ rattrs iattrs pattrs cattrs resattrs
      ipre ipost pre post cch _ hipre hipost hpost]
    rfl

/-- C6 witness: on a performance log holding tree A's entry and then tree
B's entry, `ReportImportance`/`ReportUncertainty` called with tree name `A`
attach their time children to tree B's (the last) entry. -/
theorem claim6_witness :
    Reporter.ReportImportance "A"
      { p_total := "p", warnings := "", prob_of_min_sets := [], importance := []
        basic_events_ := [], p_time_ := "tp", imp_time_ := "ti" }
      (some (XmlNode.element "report" []
        [XmlNode.element "information" []
          [XmlNode.element "performance" []
            [XmlNode.element "calculation-time" [("name", "A")] [],
             XmlNode.element "calculation-time" [("name", "B")] []]],
         XmlNode.element "results" [] []])) =
      .ok (some (XmlNode.element "report" []
        [XmlNode.element "information" []
          [XmlNode.element "performance" []
            [XmlNode.element "calculation-time" [("name", "A")] [],
             XmlNode.element "calculation-time" [("name", "B")]
               [XmlNode.element "importance" [] [XmlNode.text "ti"]]]],
         XmlNode.element "results" []
           [XmlNode.element "importance" [("name", "A"), ("basic-events", "0")] []]])) ∧
    Reporter.ReportUncertainty "A"
      { warnings := "", mean := "m", sigma := "s", confidence_interval := ("cl", "cu")
        distribution := [], p_time_ := "tu" }
      (some (XmlNode.element "report" []
        [XmlNode.element "information" []
          [XmlNode.element "performance" []
            [XmlNode.element "calculation-time" [("name", "A")] [],
             XmlNode.element "calculation-time" [("name", "B")] []]],
         XmlNode.element "results" [] []])) =
      .ok (some (XmlNode.element "report" []
        [XmlNode.element "information" []
          [XmlNode.element "performance" []
            [XmlNode.element "calculation-time" [("name", "A")] [],
             XmlNode.element "calculation-time" [("name", "B")]
               [XmlNode.element "uncertainty" [] [XmlNode.text "tu"]]]],
         XmlNode.element "results" []
           [uncertMeasure "A"
             { warnings := "", mean := "m", sigma := "s"
               confidence_interval := ("cl", "cu")
               distribution := [], p_time_ := "tu" }]])) :=
  claim6_attach_to_last "A"
    { p_total := "p", warnings := "", prob_of_min_sets := [], importance := []
      basic_events_ := [], p_time_ := "tp", imp_time_ := "ti" }
    { warnings := "", mean := "m", sigma := "s", confidence_interval := ("cl", "cu")
      distribution := [], p_time_ := "tu" }
    [] [] [] [] [("name", "B")] [] [] []
    [XmlNode.element "calculation-time" [("name", "A")] []] [] [] []
    rfl (by simp) (by simp) (by simp)

end scram
